import Mathlib

/-!
Verification development for the checkpoint-management CLI shim
(`stylegan2_pytorch/cli.py`).

The file shallowly embeds the pure content of the shim:
  * `on_model_save` — checkpoint pruning and conditional upload,
  * `retry_call` — the retry wrapper around the external train step,
  * `run_training_prep` — the mutations `run_training` performs on the
    `model_args` mapping and on the module globals before the external
    `Trainer` is constructed,
  * `train_from_folder_dispatch` — the single/multi-GPU dispatch decision,
  * `train_from_folder_model_args` — the run-configuration mapping built by
    `train_from_folder` (at its default parameter values).

Strings are modelled as `List Char`; the filesystem and the blob store are
modelled by oracles (`FS.listing` for `os.listdir`, `FS.removeFails` for
`os.remove` raising `OSError`, `FS.uploadFails` for upload failure), and the
observable effects of a call are collected in a trace.
-/

/-- Python strings, modelled as lists of characters. -/
abbrev Str := List Char

/-- Coerce a Lean string literal to the `List Char` model. -/
def str (s : String) : Str := s.data

/-- Python `s.startswith(pre)`. -/
def pyStartsWith (s pre : Str) : Bool := pre.isPrefixOf s

/-- Python `s.endswith(suf)`. -/
def pyEndsWith (s suf : Str) : Bool := suf.isSuffixOf s

/-- Python `s.rstrip('/')`. -/
def rstripSlash (s : Str) : Str := (s.reverse.dropWhile (fun c => c == '/')).reverse

/-- Python `os.path.split(p)` (posixpath): split at the last slash; the head
keeps no trailing slashes unless it is empty or all slashes. -/
def splitPath (p : Str) : Str × Str :=
  let rev := p.reverse
  let tail := (rev.takeWhile (fun c => c != '/')).reverse
  let headRaw := (rev.dropWhile (fun c => c != '/')).reverse
  let head :=
    if !headRaw.isEmpty && !(headRaw.all (fun c => c == '/')) then rstripSlash headRaw
    else headRaw
  (head, tail)

/-- Python `int(ds)` on a string of decimal digits. -/
def natOfDigits (ds : Str) : Nat :=
  ds.foldl (fun a c => a * 10 + (c.toNat - 48)) 0

/-- Backtracking for the group `(\d+)` of the pattern `model_(\d+).pt`:
`run` is the maximal digit run after the literal `model_`, `rest` is what
follows it. Group lengths are tried greedily, longest first; a candidate of
length `k+1` succeeds when the remainder starts with one arbitrary character
(the unescaped `.`) followed by the literal `pt`. -/
def tryGroup (run rest : Str) : Nat → Option Str
  | 0 => none
  | k + 1 =>
    match run.drop (k + 1) ++ rest with
    | [] => tryGroup run rest k
    | _ :: t =>
      if pyStartsWith t (str "pt") then some (run.take (k + 1))
      else tryGroup run rest k

/-- Python `re.match(r'model_(\d+).pt', s)`, returning `int` of the captured
group when the pattern matches a prefix of `s`, and `none` when `re.match`
returns `None`. -/
def matchModelNum (s : Str) : Option Nat :=
  if pyStartsWith s (str "model_") then
    let r := s.drop (str "model_").length
    let run := r.takeWhile Char.isDigit
    let rest := r.dropWhile Char.isDigit
    (tryGroup run rest run.length).map natOfDigits
  else none

/-- The module globals read by `on_model_save`:
`_delete_old_models`, `_upload_models`, `_upload_every`. -/
structure Config where
  delete_old_models : Bool
  upload_models : Bool
  upload_every : Nat
deriving DecidableEq

/-- Oracles for the effects `on_model_save` performs: the directory listing
returned by `os.listdir`, whether `os.remove` raises `OSError` on a given
entry, and whether the blob upload raises. -/
structure FS where
  listing : List Str
  removeFails : Str → Bool
  uploadFails : Bool

/-- Accumulator of the pruning loop: which entries `os.remove` was called on,
which of those raised a (caught and logged) `OSError`, and which entries were
skipped for which reason. -/
structure DelAcc where
  removeCalls : List Str
  caught : List Str
  skippedNonModel : List Str
  skippedCurrent : List Str
deriving DecidableEq

def emptyDelAcc : DelAcc := ⟨[], [], [], []⟩

/-- Exceptions that can propagate out of `on_model_save`:
`AttributeError` (from `re.match(...)` returning `None` and `.groups` being
taken), `ZeroDivisionError` (from `% 0`), and any error raised while opening
or uploading the checkpoint. -/
inductive PyExc where
  | attributeError
  | zeroDivisionError
  | uploadError
deriving DecidableEq

/-- Everything observable about one call to `on_model_save`: the pruning
trace, the upload destinations passed to the blob client, and the exception
that propagated, if any. -/
structure SaveTrace where
  removeCalls : List Str
  caught : List Str
  skippedNonModel : List Str
  skippedCurrent : List Str
  uploadCalls : List Str
deriving DecidableEq

structure SaveResult where
  trace : SaveTrace
  exc : Option PyExc
deriving DecidableEq

/-- One iteration of the pruning loop of `on_model_save`:
skip entries that are not `model_*.pt`; skip an entry the saved path ends
with; otherwise call `os.remove`, catching (and logging) `OSError`. -/
def deleteStep (model_path : Str) (removeFails : Str → Bool) (acc : DelAcc) (i : Str) :
    DelAcc :=
  if !(pyStartsWith i (str "model_")) || !(pyEndsWith i (str ".pt")) then
    { acc with skippedNonModel := acc.skippedNonModel ++ [i] }
  else if pyEndsWith model_path i then
    { acc with skippedCurrent := acc.skippedCurrent ++ [i] }
  else if removeFails i then
    { acc with removeCalls := acc.removeCalls ++ [i], caught := acc.caught ++ [i] }
  else
    { acc with removeCalls := acc.removeCalls ++ [i] }

/-- An entry the pruning loop considers deletable: Python
`i.startswith('model_') and i.endswith('.pt')`. -/
def isModelFile (i : Str) : Bool :=
  pyStartsWith i (str "model_") && pyEndsWith i (str ".pt")

/-- The upload half of `on_model_save` (lines guarded by `_upload_models`):
parse the epoch from the file name, divide by `_upload_every`, and upload to
`model_name/file_name` when the remainder is zero. Returns the destinations
passed to the blob client and the exception that propagates, if any. -/
def uploadPart (cfg : Config) (uploadFails : Bool) (model_name file_name : Str) :
    List Str × Option PyExc :=
  if cfg.upload_models then
    match matchModelNum file_name with
    | none => ([], some PyExc.attributeError)
    | some n =>
      if cfg.upload_every = 0 then ([], some PyExc.zeroDivisionError)
      else if n % cfg.upload_every = 0 then
        ([model_name ++ '/' :: file_name], if uploadFails then some PyExc.uploadError else none)
      else ([], none)
  else ([], none)

/-- The `on_model_save` callback of `cli.py`: prune old checkpoints in the
directory of `model_path` (when `_delete_old_models`), then conditionally
upload the saved checkpoint (when `_upload_models`). -/
def on_model_save (cfg : Config) (fs : FS) (model_path : Str) : SaveResult :=
  let file_path := (splitPath model_path).1
  let file_name := (splitPath model_path).2
  let model_name := (splitPath file_path).2
  let del :=
    if cfg.delete_old_models then
      fs.listing.foldl (deleteStep model_path fs.removeFails) emptyDelAcc
    else emptyDelAcc
  let up := uploadPart cfg fs.uploadFails model_name file_name
  { trace :=
      { removeCalls := del.removeCalls
        caught := del.caught
        skippedNonModel := del.skippedNonModel
        skippedCurrent := del.skippedCurrent
        uploadCalls := up.1 }
    exc := up.2 }

/-- Outcome of one call to the external `model.train()`: normal return,
`NanException`, or any other exception. -/
inductive TrainOutcome where
  | ok
  | nan
  | other
deriving DecidableEq

/-- Exception propagating out of `retry_call`, if any. -/
inductive TrainExc where
  | nan
  | other
deriving DecidableEq

/-- Observable behaviour of one `retry_call` invocation: how many times `f`
was called, the durations slept between attempts, and the exception that
propagated (`none` on success). -/
structure RetryRes where
  attempts : Nat
  sleeps : List Nat
  exc : Option TrainExc
deriving DecidableEq

/-- The loop of `retry.api.retry_call` as invoked by `run_training`
(`exceptions=NanException`, so only `nan` is caught; default `delay=0`,
`backoff=1`): call `f`; on `nan` with tries remaining, sleep `delay` and
retry; on the last try re-raise; any other exception propagates at once.
`f` maps the attempt index to that attempt's outcome. -/
def retry_internal (f : Nat → TrainOutcome) (delay : Nat) : Nat → Nat → RetryRes
  | _, 0 => ⟨0, [], none⟩
  | idx, 1 =>
    match f idx with
    | TrainOutcome.ok => ⟨1, [], none⟩
    | TrainOutcome.nan => ⟨1, [], some TrainExc.nan⟩
    | TrainOutcome.other => ⟨1, [], some TrainExc.other⟩
  | idx, n + 2 =>
    match f idx with
    | TrainOutcome.ok => ⟨1, [], none⟩
    | TrainOutcome.other => ⟨1, [], some TrainExc.other⟩
    | TrainOutcome.nan =>
      let r := retry_internal f delay (idx + 1) (n + 1)
      ⟨r.attempts + 1, delay :: r.sleeps, r.exc⟩

/-- `retry_call(model.train, tries=3, exceptions=NanException)` as called in
the training loop of `run_training`. -/
def retry_call (f : Nat → TrainOutcome) : RetryRes := retry_internal f 0 0 3

/-- How `train_from_folder` runs the training: in the current process with a
given rank and world size, or via `mp.spawn` with a given `nprocs`, every
spawned process receiving the given world size. -/
inductive Dispatch where
  | inProcess (rank worldSize : Nat)
  | spawn (nprocs worldSize : Nat)
deriving DecidableEq

/-- The dispatch decision at the end of `train_from_folder`:
`world_size = torch.cuda.device_count()`; if `world_size == 1 or not
multi_gpus` then `run_training(0, 1, ...)`, else `mp.spawn(run_training,
args=(world_size, ...), nprocs=world_size)`. -/
def train_from_folder_dispatch (deviceCount : Nat) (multiGpus : Bool) : Dispatch :=
  if deviceCount = 1 ∨ multiGpus = false then Dispatch.inProcess 0 1
  else Dispatch.spawn deviceCount deviceCount

/-- Values stored in the `model_args` dict. Float literals are represented
by their source text; `callbackOnModelSave` stands for the function object
`on_model_save`. -/
inductive Val where
  | bool (b : Bool)
  | nat (n : Nat)
  | int (i : Int)
  | float (lit : Str)
  | string (s : Str)
  | strList (l : List Str)
  | none
  | callbackOnModelSave
deriving DecidableEq

/-- A Python dict with string keys, modelled as an association list with
unique keys in insertion order. -/
abbrev Args := List (Str × Val)

/-- Python `d[k]`, as an `Option`. -/
def dictGet (d : Args) (k : Str) : Option Val :=
  match d with
  | [] => Option.none
  | (k', v) :: t => if k' = k then some v else dictGet t k

/-- Python `d[k] = v` (also one keyword of `d.update(...)`): overwrite in
place when the key exists, else append. -/
def dictSet (d : Args) (k : Str) (v : Val) : Args :=
  match d with
  | [] => [(k, v)]
  | (k', v') :: t => if k' = k then (k', v) :: t else (k', v') :: dictSet t k v

/-- Python `d.pop(k, None)`: drop the key if present. -/
def dictPop (d : Args) (k : Str) : Args :=
  d.filter (fun kv => !(kv.1 = k : Bool))

/-- The state of the module globals `_upload_models`, `_upload_every`,
`_delete_old_models` (as the values read out of `model_args`, if any). -/
structure Globals where
  uploadModels : Option Val
  uploadEvery : Option Val
  deleteOldModels : Option Val
deriving DecidableEq

/-- The six cloud/upload keys popped from `model_args` by `run_training`. -/
def cloudKeys : List Str :=
  [str "upload_models", str "upload_every", str "delete_old_models",
   str "account_url", str "credential", str "container_name"]

/-- The six `model_args.pop(...)` calls of `run_training`, in source order. -/
def popCloud (a : Args) : Args :=
  dictPop
    (dictPop
      (dictPop
        (dictPop (dictPop (dictPop a (str "upload_models")) (str "upload_every"))
          (str "delete_old_models"))
        (str "account_url"))
      (str "credential"))
    (str "container_name")

/-- The mutations `run_training` applies to `model_args` and the module
globals before constructing the external `Trainer`:
`model_args.update(is_ddp=world_size>1, rank=rank, world_size=world_size)`;
on rank 0 only, set `model_args['save_callback'] = on_model_save` and assign
the upload/deletion globals from `model_args`; then pop the six cloud keys
on every rank. Returns the dict passed to `Trainer(**model_args)` and the
resulting globals. -/
def run_training_prep (rank world_size : Nat) (args : Args) (g : Globals) :
    Args × Globals :=
  let a1 :=
    dictSet
      (dictSet (dictSet args (str "is_ddp") (Val.bool (decide (1 < world_size))))
        (str "rank") (Val.nat rank))
      (str "world_size") (Val.nat world_size)
  let g' :=
    if rank = 0 then
      { uploadModels := dictGet a1 (str "upload_models")
        uploadEvery := dictGet a1 (str "upload_every")
        deleteOldModels := dictGet a1 (str "delete_old_models") }
    else g
  let a2 :=
    if rank = 0 then dictSet a1 (str "save_callback") Val.callbackOnModelSave else a1
  (popCloud a2, g')

/-- Python `cast_list`: wrap a non-list value in a singleton list (restricted
here to the value shapes that reach it). -/
def cast_list (v : Val) : Val :=
  match v with
  | Val.strList l => Val.strList l
  | Val.string s => Val.strList [s]
  | x => x

/-- The `model_args` dict literal built by `train_from_folder`, evaluated at
the function's default parameter values, entries in source order. -/
def train_from_folder_model_args : Args :=
  [(str "name", Val.string (str "default")),
   (str "results_dir", Val.string (str "./results")),
   (str "models_dir", Val.string (str "./models")),
   (str "batch_size", Val.nat 5),
   (str "gradient_accumulate_every", Val.nat 6),
   (str "image_size", Val.nat 128),
   (str "network_capacity", Val.nat 16),
   (str "fmap_max", Val.nat 512),
   (str "transparent", Val.bool false),
   (str "lr", Val.float (str "2e-4")),
   (str "lr_mlp", Val.float (str "0.1")),
   (str "ttur_mult", Val.float (str "1.5")),
   (str "rel_disc_loss", Val.bool false),
   (str "num_workers", Val.none),
   (str "save_every", Val.nat 1000),
   (str "save_callback", Val.none),
   (str "evaluate_every", Val.nat 1000),
   (str "evaluate_callback", Val.none),
   (str "num_image_tiles", Val.nat 8),
   (str "trunc_psi", Val.float (str "0.75")),
   (str "fp16", Val.bool false),
   (str "no_pl_reg", Val.bool false),
   (str "cl_reg", Val.bool false),
   (str "fq_layers", Val.strList []),
   (str "fq_dict_size", Val.nat 256),
   (str "attn_layers", Val.strList []),
   (str "no_const", Val.bool false),
   (str "aug_prob", Val.float (str "0.")),
   (str "aug_types", cast_list (Val.strList [str "translation", str "cutout"])),
   (str "top_k_training", Val.bool false),
   (str "generator_top_k_gamma", Val.float (str "0.99")),
   (str "generator_top_k_frac", Val.float (str "0.5")),
   (str "dual_contrast_loss", Val.bool false),
   (str "dataset_aug_prob", Val.float (str "0.")),
   (str "calculate_fid_every", Val.none),
   (str "calculate_fid_num_images", Val.nat 12800),
   (str "clear_fid_cache", Val.bool false),
   (str "mixed_prob", Val.float (str "0.9")),
   (str "log", Val.bool false),
   (str "lookahead", Val.bool false),
   (str "lookahead_alpha", Val.float (str "0.5")),
   (str "lookahead_k", Val.nat 5),
   (str "ema_beta", Val.float (str "0.9999")),
   (str "delete_old_models", Val.bool true),
   (str "upload_models", Val.bool true),
   (str "upload_every", Val.nat 10),
   (str "account_url", Val.string []),
   (str "credential", Val.string []),
   (str "container_name", Val.string [])]

/-- The module-initialization values of the three globals
(`_upload_models = False`, `_upload_every = 10`, `_delete_old_models = False`). -/
def initGlobals : Globals :=
  ⟨some (Val.bool false), some (Val.nat 10), some (Val.bool false)⟩

/-!  Helper lemmas about the string primitives. -/

lemma isPrefixOf_append (l r : Str) : l.isPrefixOf (l ++ r) = true := by
  induction l with
  | nil => simp [List.isPrefixOf]
  | cons a as ih => simp [List.isPrefixOf, ih]

lemma isPrefixOf_self (l : Str) : l.isPrefixOf l = true := by
  simp [List.isPrefixOf]

lemma pyEndsWith_iff (s t : Str) : pyEndsWith s t = true ↔ t <:+ s := by
  simp [pyEndsWith, List.isSuffixOf_iff_suffix]

lemma takeWhile_append_eq (p : Char → Bool) (l : Str) (x : Char) (r : Str)
    (hl : ∀ c ∈ l, p c = true) (hx : p x = false) :
    (l ++ x :: r).takeWhile p = l := by
  induction l with
  | nil => simp [hx]
  | cons a as ih =>
    have ha : p a = true := hl a (by simp)
    simp only [List.cons_append, List.takeWhile_cons, ha]
    simpa using ih (fun c hc => hl c (by simp [hc]))

lemma dropWhile_append_eq (p : Char → Bool) (l : Str) (x : Char) (r : Str)
    (hl : ∀ c ∈ l, p c = true) (hx : p x = false) :
    (l ++ x :: r).dropWhile p = x :: r := by
  induction l with
  | nil => simp [hx]
  | cons a as ih =>
    have ha : p a = true := hl a (by simp)
    simp only [List.cons_append, List.dropWhile_cons, ha]
    simpa using ih (fun c hc => hl c (by simp [hc]))

lemma splitPath_snd_suffix (p : Str) : (splitPath p).2 <:+ p := by
  refine ⟨(p.reverse.dropWhile (fun c => c != '/')).reverse, ?_⟩
  show (p.reverse.dropWhile (fun c => c != '/')).reverse ++
      (p.reverse.takeWhile (fun c => c != '/')).reverse = p
  rw [← List.reverse_append, List.takeWhile_append_dropWhile, List.reverse_reverse]

lemma splitPath_snd_append (d f : Str) (hf : ∀ c ∈ f, ¬c = '/') :
    (splitPath (d ++ '/' :: f)).2 = f := by
  show ((d ++ '/' :: f).reverse.takeWhile (fun c => c != '/')).reverse = f
  have hrev : (d ++ '/' :: f).reverse = f.reverse ++ '/' :: d.reverse := by
    simp
  rw [hrev, takeWhile_append_eq _ _ _ _ (fun c hc => ?_) (by decide),
    List.reverse_reverse]
  simpa using hf c (List.mem_reverse.mp hc)

lemma matchModelNum_canonical (ds : Str) (hne : ds ≠ [])
    (hdig : ∀ c ∈ ds, c.isDigit = true) :
    matchModelNum (str "model_" ++ (ds ++ str ".pt")) = some (natOfDigits ds) := by
  have hpre : pyStartsWith (str "model_" ++ (ds ++ str ".pt")) (str "model_") = true :=
    isPrefixOf_append _ _
  have hpt : str ".pt" = '.' :: str "pt" := rfl
  have hrun : (ds ++ str ".pt").takeWhile Char.isDigit = ds := by
    rw [hpt]
    exact takeWhile_append_eq _ _ _ _ hdig (by decide)
  have hrest : (ds ++ str ".pt").dropWhile Char.isDigit = '.' :: str "pt" := by
    rw [hpt]
    exact dropWhile_append_eq _ _ _ _ hdig (by decide)
  obtain ⟨d, ds', rfl⟩ := List.exists_cons_of_ne_nil hne
  have hdrop : (d :: ds').drop (ds'.length + 1) = [] := by
    simp
  have htake : (d :: ds').take (ds'.length + 1) = d :: ds' := by
    simp
  simp only [matchModelNum, hpre, if_true, List.drop_left, hrun, hrest,
    List.length_cons, tryGroup, hdrop, List.nil_append]
  simp [pyStartsWith, isPrefixOf_self, htake]

lemma deleteLoop_removeCalls (mp : Str) (rf : Str → Bool) (l : List Str) (acc : DelAcc) :
    (l.foldl (deleteStep mp rf) acc).removeCalls =
      acc.removeCalls ++ l.filter (fun i => isModelFile i && !pyEndsWith mp i) := by
  induction l generalizing acc with
  | nil => simp
  | cons i t ih =>
    cases h1 : pyStartsWith i (str "model_") <;> cases h2 : pyEndsWith i (str ".pt") <;>
      cases h3 : pyEndsWith mp i <;> cases h4 : rf i <;>
        simp [deleteStep, isModelFile, h1, h2, h3, h4, ih, List.filter_cons]

lemma deleteLoop_caught (mp : Str) (rf : Str → Bool) (l : List Str) (acc : DelAcc) :
    (l.foldl (deleteStep mp rf) acc).caught =
      acc.caught ++ (l.filter (fun i => isModelFile i && !pyEndsWith mp i)).filter rf := by
  induction l generalizing acc with
  | nil => simp
  | cons i t ih =>
    cases h1 : pyStartsWith i (str "model_") <;> cases h2 : pyEndsWith i (str ".pt") <;>
      cases h3 : pyEndsWith mp i <;> cases h4 : rf i <;>
        simp [deleteStep, isModelFile, h1, h2, h3, h4, ih, List.filter_cons]

/-- The entries `os.remove` is called on, in every `on_model_save` run: the
`model_*.pt` entries of the listing that the saved path does not end with
(empty when deletion is disabled). -/
lemma on_model_save_removeCalls (cfg : Config) (fs : FS) (mp : Str) :
    (on_model_save cfg fs mp).trace.removeCalls =
      if cfg.delete_old_models then
        fs.listing.filter (fun i => isModelFile i && !pyEndsWith mp i)
      else [] := by
  by_cases h : cfg.delete_old_models <;>
    simp [on_model_save, h, deleteLoop_removeCalls, emptyDelAcc]

lemma on_model_save_caught (cfg : Config) (fs : FS) (mp : Str) :
    (on_model_save cfg fs mp).trace.caught =
      (on_model_save cfg fs mp).trace.removeCalls.filter fs.removeFails := by
  by_cases h : cfg.delete_old_models <;>
    simp [on_model_save, h, deleteLoop_removeCalls, deleteLoop_caught, emptyDelAcc]

lemma on_model_save_exc (cfg : Config) (fs : FS) (mp : Str) :
    (on_model_save cfg fs mp).exc =
      (uploadPart cfg fs.uploadFails (splitPath (splitPath mp).1).2 (splitPath mp).2).2 := by
  simp [on_model_save]

lemma on_model_save_uploadCalls (cfg : Config) (fs : FS) (mp : Str) :
    (on_model_save cfg fs mp).trace.uploadCalls =
      (uploadPart cfg fs.uploadFails (splitPath (splitPath mp).1).2 (splitPath mp).2).1 := by
  simp [on_model_save]

/-!  Helper lemmas about the dict model. -/

lemma dictGet_dictSet_self (d : Args) (k : Str) (v : Val) :
    dictGet (dictSet d k v) k = some v := by
  induction d with
  | nil => simp [dictGet, dictSet]
  | cons kv t ih =>
    obtain ⟨k', v'⟩ := kv
    by_cases h : k' = k <;> simp [dictSet, dictGet, h, ih]

lemma dictGet_dictSet_ne (d : Args) (k k' : Str) (v : Val) (h : k' ≠ k) :
    dictGet (dictSet d k v) k' = dictGet d k' := by
  have hkk' : ¬k = k' := fun hh => h hh.symm
  induction d with
  | nil => simp [dictGet, dictSet, hkk']
  | cons kv t ih =>
    obtain ⟨k'', v''⟩ := kv
    by_cases hk : k'' = k
    · subst hk
      simp [dictSet, dictGet, hkk']
    · by_cases hk' : k'' = k' <;> simp [dictSet, dictGet, hk, hk', h, ih]

lemma dictGet_dictPop_self (d : Args) (k : Str) :
    dictGet (dictPop d k) k = Option.none := by
  induction d with
  | nil => simp [dictGet, dictPop]
  | cons kv t ih =>
    obtain ⟨k', v'⟩ := kv
    by_cases h : k' = k
    · simpa [dictPop, List.filter_cons, h] using ih
    · simpa [dictPop, dictGet, List.filter_cons, h] using ih

lemma dictGet_dictPop_ne (d : Args) (k k' : Str) (h : k' ≠ k) :
    dictGet (dictPop d k) k' = dictGet d k' := by
  have hkk' : ¬k = k' := fun hh => h hh.symm
  induction d with
  | nil => simp [dictGet, dictPop]
  | cons kv t ih =>
    obtain ⟨k'', v''⟩ := kv
    by_cases hk : k'' = k
    · subst hk
      simpa [dictPop, List.filter_cons, dictGet, hkk'] using ih
    · by_cases hk' : k'' = k'
      · simp [dictPop, List.filter_cons, dictGet, hk, hk', h]
      · simpa [dictPop, List.filter_cons, dictGet, hk, hk'] using ih

lemma popCloud_get_mem (a : Args) (k : Str) (h : k ∈ cloudKeys) :
    dictGet (popCloud a) k = Option.none := by
  simp only [cloudKeys, List.mem_cons, List.not_mem_nil, or_false] at h
  rcases h with rfl | rfl | rfl | rfl | rfl | rfl
  · rw [popCloud, dictGet_dictPop_ne _ _ _ (by decide), dictGet_dictPop_ne _ _ _ (by decide),
      dictGet_dictPop_ne _ _ _ (by decide), dictGet_dictPop_ne _ _ _ (by decide),
      dictGet_dictPop_ne _ _ _ (by decide), dictGet_dictPop_self]
  · rw [popCloud, dictGet_dictPop_ne _ _ _ (by decide), dictGet_dictPop_ne _ _ _ (by decide),
      dictGet_dictPop_ne _ _ _ (by decide), dictGet_dictPop_ne _ _ _ (by decide),
      dictGet_dictPop_self]
  · rw [popCloud, dictGet_dictPop_ne _ _ _ (by decide), dictGet_dictPop_ne _ _ _ (by decide),
      dictGet_dictPop_ne _ _ _ (by decide), dictGet_dictPop_self]
  · rw [popCloud, dictGet_dictPop_ne _ _ _ (by decide), dictGet_dictPop_ne _ _ _ (by decide),
      dictGet_dictPop_self]
  · rw [popCloud, dictGet_dictPop_ne _ _ _ (by decide), dictGet_dictPop_self]
  · rw [popCloud, dictGet_dictPop_self]

lemma popCloud_get_notMem (a : Args) (k : Str) (h : k ∉ cloudKeys) :
    dictGet (popCloud a) k = dictGet a k := by
  simp only [cloudKeys, List.mem_cons, List.not_mem_nil, or_false, not_or] at h
  obtain ⟨h1, h2, h3, h4, h5, h6⟩ := h
  rw [popCloud, dictGet_dictPop_ne _ _ _ h6, dictGet_dictPop_ne _ _ _ h5,
    dictGet_dictPop_ne _ _ _ h4, dictGet_dictPop_ne _ _ _ h3,
    dictGet_dictPop_ne _ _ _ h2, dictGet_dictPop_ne _ _ _ h1]

lemma dictGet_three_sets_ne (args : Args) (v1 v2 v3 : Val) (k : Str)
    (h1 : k ≠ str "is_ddp") (h2 : k ≠ str "rank") (h3 : k ≠ str "world_size") :
    dictGet
      (dictSet (dictSet (dictSet args (str "is_ddp") v1) (str "rank") v2)
        (str "world_size") v3) k = dictGet args k := by
  rw [dictGet_dictSet_ne _ _ _ _ h3, dictGet_dictSet_ne _ _ _ _ h2,
    dictGet_dictSet_ne _ _ _ _ h1]

lemma prep_get_is_ddp (rank world_size : Nat) (args : Args) (g : Globals) :
    dictGet (run_training_prep rank world_size args g).1 (str "is_ddp") =
      some (Val.bool (decide (1 < world_size))) := by
  simp only [run_training_prep]
  rw [popCloud_get_notMem _ _ (by decide)]
  by_cases hr : rank = 0
  · simp only [if_pos hr]
    rw [dictGet_dictSet_ne _ _ _ _ (by decide), dictGet_dictSet_ne _ _ _ _ (by decide),
      dictGet_dictSet_ne _ _ _ _ (by decide), dictGet_dictSet_self]
  · simp only [if_neg hr]
    rw [dictGet_dictSet_ne _ _ _ _ (by decide), dictGet_dictSet_ne _ _ _ _ (by decide),
      dictGet_dictSet_self]

lemma prep_get_rank (rank world_size : Nat) (args : Args) (g : Globals) :
    dictGet (run_training_prep rank world_size args g).1 (str "rank") =
      some (Val.nat rank) := by
  simp only [run_training_prep]
  rw [popCloud_get_notMem _ _ (by decide)]
  by_cases hr : rank = 0
  · simp only [if_pos hr]
    rw [dictGet_dictSet_ne _ _ _ _ (by decide), dictGet_dictSet_ne _ _ _ _ (by decide),
      dictGet_dictSet_self]
  · simp only [if_neg hr]
    rw [dictGet_dictSet_ne _ _ _ _ (by decide), dictGet_dictSet_self]

lemma prep_get_world_size (rank world_size : Nat) (args : Args) (g : Globals) :
    dictGet (run_training_prep rank world_size args g).1 (str "world_size") =
      some (Val.nat world_size) := by
  simp only [run_training_prep]
  rw [popCloud_get_notMem _ _ (by decide)]
  by_cases hr : rank = 0
  · simp only [if_pos hr]
    rw [dictGet_dictSet_ne _ _ _ _ (by decide), dictGet_dictSet_self]
  · simp only [if_neg hr]
    rw [dictGet_dictSet_self]

lemma prep_get_save_callback_rank0 (world_size : Nat) (args : Args) (g : Globals) :
    dictGet (run_training_prep 0 world_size args g).1 (str "save_callback") =
      some Val.callbackOnModelSave := by
  simp only [run_training_prep, if_pos rfl, if_true]
  rw [popCloud_get_notMem _ _ (by decide), dictGet_dictSet_self]

lemma prep_get_save_callback_ne (rank world_size : Nat) (args : Args) (g : Globals)
    (h : rank ≠ 0) :
    dictGet (run_training_prep rank world_size args g).1 (str "save_callback") =
      dictGet args (str "save_callback") := by
  simp only [run_training_prep, if_neg h]
  rw [popCloud_get_notMem _ _ (by decide),
    dictGet_three_sets_ne _ _ _ _ _ (by decide) (by decide) (by decide)]

lemma prep_get_other (rank world_size : Nat) (args : Args) (g : Globals) (k : Str)
    (hc : k ∉ cloudKeys) (hsc : k ≠ str "save_callback") (hdd : k ≠ str "is_ddp")
    (hrk : k ≠ str "rank") (hws : k ≠ str "world_size") :
    dictGet (run_training_prep rank world_size args g).1 k = dictGet args k := by
  simp only [run_training_prep]
  rw [popCloud_get_notMem _ _ hc]
  by_cases hr : rank = 0
  · simp only [if_pos hr]
    rw [dictGet_dictSet_ne _ _ _ _ hsc, dictGet_three_sets_ne _ _ _ _ _ hdd hrk hws]
  · simp only [if_neg hr]
    rw [dictGet_three_sets_ne _ _ _ _ _ hdd hrk hws]

lemma prep_globals_rank0 (world_size : Nat) (args : Args) (g : Globals) :
    (run_training_prep 0 world_size args g).2 =
      ⟨dictGet args (str "upload_models"), dictGet args (str "upload_every"),
        dictGet args (str "delete_old_models")⟩ := by
  simp only [run_training_prep, if_pos rfl, if_true]
  rw [dictGet_three_sets_ne _ _ _ _ _ (by decide) (by decide) (by decide),
    dictGet_three_sets_ne _ _ _ _ _ (by decide) (by decide) (by decide),
    dictGet_three_sets_ne _ _ _ _ _ (by decide) (by decide) (by decide)]

lemma prep_globals_ne (rank world_size : Nat) (args : Args) (g : Globals)
    (h : rank ≠ 0) :
    (run_training_prep rank world_size args g).2 = g := by
  simp only [run_training_prep, if_neg h]

/-!  The claims. -/

/-- C1: For every call to `on_model_save` with uploading enabled and a saved
filename of the form `model_<n>.pt`, the checkpoint is uploaded to the blob
store if and only if `n` is divisible by the configured upload interval
(`_upload_every`); when it is not divisible, no upload call is made. -/
theorem upload_iff_divisible (cfg : Config) (fs : FS) (dir ds : Str)
    (hup : cfg.upload_models = true) (hue : 0 < cfg.upload_every)
    (hne : ds ≠ []) (hdig : ∀ c ∈ ds, c.isDigit = true) :
    ((on_model_save cfg fs
          (dir ++ '/' :: (str "model_" ++ (ds ++ str ".pt")))).trace.uploadCalls ≠ [] ↔
        natOfDigits ds % cfg.upload_every = 0) ∧
      (natOfDigits ds % cfg.upload_every ≠ 0 →
        (on_model_save cfg fs
          (dir ++ '/' :: (str "model_" ++ (ds ++ str ".pt")))).trace.uploadCalls = []) := by
  have hchars : ∀ c ∈ str "model_" ++ (ds ++ str ".pt"), ¬c = '/' := by
    intro c hc heq
    subst heq
    rcases List.mem_append.mp hc with h | h
    · exact absurd h (by decide)
    · rcases List.mem_append.mp h with h' | h'
      · exact absurd (hdig _ h') (by decide)
      · exact absurd h' (by decide)
  have hfn := splitPath_snd_append dir _ hchars
  have hz : ¬cfg.upload_every = 0 := Nat.pos_iff_ne_zero.mp hue
  rw [on_model_save_uploadCalls, hfn]
  simp only [uploadPart, hup, if_true, matchModelNum_canonical ds hne hdig, if_neg hz]
  by_cases hmod : natOfDigits ds % cfg.upload_every = 0 <;> simp [hmod]

theorem upload_iff_divisible_witness :
    (on_model_save ⟨true, true, 10⟩ ⟨[], fun _ => false, false⟩
      (str "m" ++ '/' :: (str "model_" ++ (str "20" ++ str ".pt")))).trace.uploadCalls ≠ [] :=
  (upload_iff_divisible ⟨true, true, 10⟩ ⟨[], fun _ => false, false⟩ (str "m") (str "20")
    rfl (by decide) (by decide) (by decide)).1.mpr (by decide)

/-- C2: For every call to `on_model_save` with deletion enabled, the pruning
loop never calls `os.remove` on the checkpoint path currently being saved:
the directory entry named by the `model_path` argument is always skipped. -/
theorem prune_never_removes_current (cfg : Config) (fs : FS) (mp : Str) :
    (splitPath mp).2 ∉ (on_model_save cfg fs mp).trace.removeCalls := by
  intro hmem
  rw [on_model_save_removeCalls] at hmem
  by_cases h : cfg.delete_old_models
  · rw [if_pos h] at hmem
    have hcond := (List.mem_filter.mp hmem).2
    have hend : pyEndsWith mp (splitPath mp).2 = true :=
      (pyEndsWith_iff _ _).mpr (splitPath_snd_suffix mp)
    simp [hend] at hcond
  · rw [if_neg h] at hmem
    exact absurd hmem (List.not_mem_nil _)

theorem prune_never_removes_current_witness :
    str "model_7.pt" ∉
      (on_model_save ⟨true, false, 10⟩ ⟨[str "model_7.pt"], fun _ => false, false⟩
        (str "d/model_7.pt")).trace.removeCalls := by
  have h := prune_never_removes_current ⟨true, false, 10⟩
    ⟨[str "model_7.pt"], fun _ => false, false⟩ (str "d/model_7.pt")
  rw [show (splitPath (str "d/model_7.pt")).2 = str "model_7.pt" from by decide] at h
  exact h

/-- C3: For every filename in the checkpoint directory that does not match
the expected checkpoint filename pattern (`startswith('model_') and
endswith('.pt')`), pruning skips it: `on_model_save` never calls `os.remove`
on such a file. -/
theorem prune_skips_nonmodel (cfg : Config) (fs : FS) (mp i : Str)
    (h : isModelFile i = false) :
    i ∉ (on_model_save cfg fs mp).trace.removeCalls := by
  intro hmem
  rw [on_model_save_removeCalls] at hmem
  by_cases hd : cfg.delete_old_models
  · rw [if_pos hd] at hmem
    have hcond := (List.mem_filter.mp hmem).2
    simp [h] at hcond
  · rw [if_neg hd] at hmem
    exact absurd hmem (List.not_mem_nil _)

theorem prune_skips_nonmodel_witness :
    str "readme.txt" ∉
      (on_model_save ⟨true, false, 10⟩ ⟨[str "readme.txt"], fun _ => false, false⟩
        (str "d/model_1.pt")).trace.removeCalls :=
  prune_skips_nonmodel _ _ _ _ (by decide)

/-- C4: In the training loop, each call to the external trainer's `train()`
is retried up to three times (three attempts in total), only on the
numerical-instability error (`NanException`), with no backoff between
attempts; if all three attempts raise, the exception propagates uncaught
out of the loop. -/
theorem train_retry_spec (f : Nat → TrainOutcome) :
    (retry_call f).attempts ≤ 3 ∧
      (∀ d ∈ (retry_call f).sleeps, d = 0) ∧
      (1 < (retry_call f).attempts → f 0 = TrainOutcome.nan) ∧
      (2 < (retry_call f).attempts → f 1 = TrainOutcome.nan) ∧
      ((retry_call f).exc = some TrainExc.nan ↔
        f 0 = TrainOutcome.nan ∧ f 1 = TrainOutcome.nan ∧ f 2 = TrainOutcome.nan) ∧
      (f 0 = TrainOutcome.nan ∧ f 1 = TrainOutcome.nan ∧ f 2 = TrainOutcome.nan →
        (retry_call f).attempts = 3) ∧
      ((retry_call f).exc = some TrainExc.other →
        f ((retry_call f).attempts - 1) = TrainOutcome.other) ∧
      ((retry_call f).exc = none → f ((retry_call f).attempts - 1) = TrainOutcome.ok) := by
  cases h0 : f 0 <;> cases h1 : f 1 <;> cases h2 : f 2 <;>
    simp [retry_call, retry_internal, h0, h1, h2]

theorem train_retry_spec_witness :
    (retry_call fun _ => TrainOutcome.nan).exc = some TrainExc.nan ∧
      (retry_call fun _ => TrainOutcome.nan).attempts = 3 :=
  ⟨(train_retry_spec fun _ => TrainOutcome.nan).2.2.2.2.1.mpr ⟨rfl, rfl, rfl⟩,
    (train_retry_spec fun _ => TrainOutcome.nan).2.2.2.2.2.1 ⟨rfl, rfl, rfl⟩⟩

/-- C5 (counterexample): the claim that `model_args` is immutable after
construction and passed by value fails on the code: `run_training` removes
the key `upload_models` (among others) from the very mapping built by
`train_from_folder`, and adds the key `is_ddp`, before handing it to the
`Trainer`. -/
theorem model_args_immutable_cex :
    dictGet train_from_folder_model_args (str "upload_models") = some (Val.bool true) ∧
      dictGet (run_training_prep 0 1 train_from_folder_model_args initGlobals).1
        (str "upload_models") = Option.none ∧
      dictGet train_from_folder_model_args (str "is_ddp") = Option.none ∧
      dictGet (run_training_prep 0 1 train_from_folder_model_args initGlobals).1
        (str "is_ddp") = some (Val.bool false) := by
  decide

/-- C5 (amended): the run-configuration mapping `model_args` is constructed
once per invocation of `train_from_folder`, but it is NOT immutable
thereafter and is passed by reference: before constructing the `Trainer`,
`run_training` mutates that same mapping by adding `is_ddp`, `rank` and
`world_size`, overwriting `save_callback` on rank 0, and removing the six
cloud keys. -/
theorem model_args_mutated_before_trainer (rank world_size : Nat) :
    dictGet (run_training_prep rank world_size train_from_folder_model_args initGlobals).1
        (str "upload_models") = Option.none ∧
      dictGet (run_training_prep rank world_size train_from_folder_model_args initGlobals).1
        (str "is_ddp") = some (Val.bool (decide (1 < world_size))) ∧
      dictGet (run_training_prep rank world_size train_from_folder_model_args initGlobals).1
        (str "rank") = some (Val.nat rank) ∧
      dictGet (run_training_prep rank world_size train_from_folder_model_args initGlobals).1
        (str "world_size") = some (Val.nat world_size) ∧
      (rank = 0 →
        dictGet (run_training_prep rank world_size train_from_folder_model_args initGlobals).1
          (str "save_callback") = some Val.callbackOnModelSave) ∧
      (run_training_prep rank world_size train_from_folder_model_args initGlobals).1 ≠
        train_from_folder_model_args := by
  refine ⟨?_, prep_get_is_ddp _ _ _ _, prep_get_rank _ _ _ _, prep_get_world_size _ _ _ _,
    ?_, ?_⟩
  · simp only [run_training_prep]
    exact popCloud_get_mem _ _ (by decide)
  · intro hr
    subst hr
    exact prep_get_save_callback_rank0 _ _ _
  · intro heq
    have h1 : dictGet (run_training_prep rank world_size train_from_folder_model_args
        initGlobals).1 (str "upload_models") = Option.none := by
      simp only [run_training_prep]
      exact popCloud_get_mem _ _ (by decide)
    rw [heq] at h1
    have h2 : dictGet train_from_folder_model_args (str "upload_models") =
        some (Val.bool true) := by decide
    rw [h2] at h1
    exact Option.noConfusion h1

theorem model_args_mutated_before_trainer_witness :
    dictGet (run_training_prep 0 1 train_from_folder_model_args initGlobals).1
      (str "save_callback") = some Val.callbackOnModelSave :=
  (model_args_mutated_before_trainer 0 1).2.2.2.2.1 rfl

/-- C6: For every file considered for deletion during pruning, an `OSError`
raised by `os.remove` is caught and logged, the loop continues to the next
file (the set of entries `os.remove` is called on covers the whole listing
independently of which removals fail), and no file-deletion error ever
propagates out of `on_model_save` (the propagated exception is independent
of the `os.remove` failure oracle). -/
theorem prune_oserror_caught (cfg : Config) (fs : FS) (mp : Str)
    (h : cfg.delete_old_models = true) :
    (on_model_save cfg fs mp).trace.caught =
        (on_model_save cfg fs mp).trace.removeCalls.filter fs.removeFails ∧
      (on_model_save cfg fs mp).trace.removeCalls =
        fs.listing.filter (fun i => isModelFile i && !pyEndsWith mp i) ∧
      ∀ rf : Str → Bool,
        (on_model_save cfg ⟨fs.listing, rf, fs.uploadFails⟩ mp).exc =
          (on_model_save cfg fs mp).exc := by
  refine ⟨on_model_save_caught cfg fs mp, ?_, ?_⟩
  · rw [on_model_save_removeCalls, if_pos h]
  · intro rf
    rw [on_model_save_exc, on_model_save_exc]

theorem prune_oserror_caught_witness :
    (on_model_save ⟨true, false, 10⟩
        ⟨[str "model_1.pt", str "model_2.pt"], fun i => decide (i = str "model_1.pt"), false⟩
        (str "d/model_2.pt")).trace.caught =
      (on_model_save ⟨true, false, 10⟩
        ⟨[str "model_1.pt", str "model_2.pt"], fun i => decide (i = str "model_1.pt"), false⟩
        (str "d/model_2.pt")).trace.removeCalls.filter
          (fun i => decide (i = str "model_1.pt")) :=
  (prune_oserror_caught ⟨true, false, 10⟩
    ⟨[str "model_1.pt", str "model_2.pt"], fun i => decide (i = str "model_1.pt"), false⟩
    (str "d/model_2.pt") rfl).1

/-- C7: When uploading is enabled and the saved checkpoint's filename does
not match the numeric pattern `model_(\d+).pt` (a malformed filename),
`on_model_save` raises an uncaught exception (`AttributeError` from calling
`.groups` on `None`); likewise an upload failure propagates uncaught out of
the callback. -/
theorem save_callback_failures_propagate (cfg : Config) (fs : FS) (mp : Str)
    (hup : cfg.upload_models = true) :
    (matchModelNum (splitPath mp).2 = Option.none →
        (on_model_save cfg fs mp).exc = some PyExc.attributeError) ∧
      ∀ n, matchModelNum (splitPath mp).2 = some n → cfg.upload_every ≠ 0 →
        n % cfg.upload_every = 0 → fs.uploadFails = true →
        (on_model_save cfg fs mp).exc = some PyExc.uploadError := by
  constructor
  · intro hm
    rw [on_model_save_exc]
    simp [uploadPart, hup, hm]
  · intro n hm hz hmod hf
    rw [on_model_save_exc]
    simp [uploadPart, hup, hm, hz, hmod, hf]

theorem save_callback_failures_propagate_witness :
    (on_model_save ⟨false, true, 10⟩ ⟨[], fun _ => false, false⟩ (str "d/foo.pt")).exc =
      some PyExc.attributeError :=
  (save_callback_failures_propagate ⟨false, true, 10⟩ ⟨[], fun _ => false, false⟩
    (str "d/foo.pt") rfl).1 (by decide)

/-- C8: In `train_from_folder`'s training dispatch, if the CUDA device count
is 1 or the `multi_gpus` flag is false, training runs in the current process
with rank 0 and world size 1; otherwise one process per device is spawned
(`mp.spawn` with `nprocs` equal to the device count), each receiving that
device count as its world size. -/
theorem train_dispatch_spec (deviceCount : Nat) (multiGpus : Bool) :
    ((deviceCount = 1 ∨ multiGpus = false) →
        train_from_folder_dispatch deviceCount multiGpus = Dispatch.inProcess 0 1) ∧
      (¬(deviceCount = 1 ∨ multiGpus = false) →
        train_from_folder_dispatch deviceCount multiGpus =
          Dispatch.spawn deviceCount deviceCount) := by
  constructor <;> intro h <;> simp [train_from_folder_dispatch, h]

theorem train_dispatch_spec_witness :
    train_from_folder_dispatch 1 true = Dispatch.inProcess 0 1 ∧
      train_from_folder_dispatch 4 true = Dispatch.spawn 4 4 :=
  ⟨(train_dispatch_spec 1 true).1 (Or.inl rfl),
    (train_dispatch_spec 4 true).2 (by decide)⟩

/-- C9 (counterexample): the claim's example is false on the code: when
`on_model_save` is called with a path ending in `model_120.pt` and the
directory contains `model_20.pt`, pruning does NOT skip `model_20.pt` —
`'d/model_120.pt'.endswith('model_20.pt')` is false (the suffix of that
length is `odel_120.pt`), so `os.remove` is called on `model_20.pt`. -/
theorem prune_suffix_example_refuted :
    (on_model_save ⟨true, false, 10⟩ ⟨[str "model_20.pt"], fun _ => false, false⟩
        (str "d/model_120.pt")).trace.removeCalls = [str "model_20.pt"] ∧
      (on_model_save ⟨true, false, 10⟩ ⟨[str "model_20.pt"], fun _ => false, false⟩
        (str "d/model_120.pt")).trace.skippedCurrent = [] := by
  decide

/-- C9 (amended): the pruning skip test for the current checkpoint is a
string-suffix check on the saved path, so for some inputs a file other than
the one being saved is also skipped: when `on_model_save` is called with a
path ending in `model_model_5.pt` and the directory contains `model_5.pt`,
pruning skips `model_5.pt` as well (it is never removed), because the saved
path ends with that filename, even though it is not the file being saved. -/
theorem prune_suffix_collateral_skip :
    (on_model_save ⟨true, false, 10⟩ ⟨[str "model_5.pt"], fun _ => false, false⟩
          (str "d/model_model_5.pt")).trace.removeCalls = [] ∧
      (on_model_save ⟨true, false, 10⟩ ⟨[str "model_5.pt"], fun _ => false, false⟩
          (str "d/model_model_5.pt")).trace.skippedCurrent = [str "model_5.pt"] ∧
      (splitPath (str "d/model_model_5.pt")).2 ≠ str "model_5.pt" := by
  decide

/-- C10: In every `run_training` invocation, the six cloud/upload keys
(`upload_models`, `upload_every`, `delete_old_models`, `account_url`,
`credential`, `container_name`) are removed from `model_args` before the
`Trainer` is constructed on every rank, while the upload/deletion globals
and the `save_callback` entry are set only on rank 0; all other entries of
`model_args` other than `is_ddp`, `rank` and `world_size` are passed to the
`Trainer` unchanged. -/
theorem run_training_frame (rank world_size : Nat) (args : Args) (g : Globals) :
    (∀ k ∈ cloudKeys, dictGet (run_training_prep rank world_size args g).1 k = Option.none) ∧
      dictGet (run_training_prep rank world_size args g).1 (str "is_ddp") =
        some (Val.bool (decide (1 < world_size))) ∧
      dictGet (run_training_prep rank world_size args g).1 (str "rank") =
        some (Val.nat rank) ∧
      dictGet (run_training_prep rank world_size args g).1 (str "world_size") =
        some (Val.nat world_size) ∧
      (rank = 0 →
        dictGet (run_training_prep rank world_size args g).1 (str "save_callback") =
            some Val.callbackOnModelSave ∧
          (run_training_prep rank world_size args g).2 =
            ⟨dictGet args (str "upload_models"), dictGet args (str "upload_every"),
              dictGet args (str "delete_old_models")⟩) ∧
      (rank ≠ 0 →
        dictGet (run_training_prep rank world_size args g).1 (str "save_callback") =
            dictGet args (str "save_callback") ∧
          (run_training_prep rank world_size args g).2 = g) ∧
      (∀ k, k ∉ cloudKeys → k ≠ str "save_callback" → k ≠ str "is_ddp" →
        k ≠ str "rank" → k ≠ str "world_size" →
        dictGet (run_training_prep rank world_size args g).1 k = dictGet args k) := by
  refine ⟨?_, prep_get_is_ddp _ _ _ _, prep_get_rank _ _ _ _, prep_get_world_size _ _ _ _,
    ?_, ?_, ?_⟩
  · intro k hk
    simp only [run_training_prep]
    exact popCloud_get_mem _ _ hk
  · intro hr
    subst hr
    exact ⟨prep_get_save_callback_rank0 _ _ _, prep_globals_rank0 _ _ _⟩
  · intro hr
    exact ⟨prep_get_save_callback_ne _ _ _ _ hr, prep_globals_ne _ _ _ _ hr⟩
  · intro k hc hsc hdd hrk hws
    exact prep_get_other _ _ _ _ _ hc hsc hdd hrk hws

theorem run_training_frame_witness :
    dictGet (run_training_prep 0 2 train_from_folder_model_args initGlobals).1
        (str "save_callback") = some Val.callbackOnModelSave ∧
      (run_training_prep 0 2 train_from_folder_model_args initGlobals).2 =
        ⟨some (Val.bool true), some (Val.nat 10), some (Val.bool true)⟩ := by
  have h := (run_training_frame 0 2 train_from_folder_model_args initGlobals).2.2.2.2.1 rfl
  refine ⟨h.1, ?_⟩
  rw [h.2]
  decide
